import Mathlib

/-!
Verification of the MQL formula/join compiler
(`snuba/query/mql/parser_supported_join.py`).

This file gives a shallow embedding of the data model and the operations of
the compiler: the intermediate parse tree (`InitialParseResult` /
`FormulaParameter`), the expression AST (`Expression`), join clauses, the
formula-to-join compiler (`build_formula_query_from_clause`,
`convert_formula_to_query`), the timeseries builder
(`convert_timeseries_to_query`), the entity resolver (`select_entity`), the
context-population stage (`populate_rollup`, `populate_limit`,
`populate_query_from_mql_context`) and the quantile-unwrap post-processor
(`quantiles_to_quantile`).  Python exceptions are modelled with `Except`;
Python truthiness on optional values is modelled explicitly; Python `int` is
modelled by `Int` and Python `float` literals by `Rat`.

Definitions translated from files of the repository that are not present
under the inspected source (helper modules such as `snuba/query/conditions.py`
or `snuba/query/mql/context_population.py`) carry a doc comment starting with
`Modelled from the spec:`.
-/

namespace Snuba

/-- Python exceptions raised by the compiler: `InvalidQueryException`,
`ParsingException` (with its `should_report` flag, default `true`),
unguarded `IndexError` from sequence indexing, and `AssertionError` from
failing `assert` statements. -/
inductive QueryError where
  | invalidQuery (msg : String)
  | parsing (msg : String) (should_report : Bool)
  | indexError
  | assertionError
deriving DecidableEq, Repr

/-- A Python literal value as stored in a snuba `Literal` expression:
a string, an `int`, a `float` (modelled exactly by `Rat`), or `None`. -/
inductive LitValue where
  | str (s : String)
  | int (i : Int)
  | num (q : Rat)
  | nul
deriving DecidableEq, Repr

/-- The snuba expression AST (`snuba/query/expressions.py`): `Column`,
`Literal`, `FunctionCall` and `CurriedFunctionCall`.  A
`CurriedFunctionCall`'s `internal_function` is always a `FunctionCall` in
snuba (its dataclass field is typed `FunctionCall`), so it is stored here
flattened into the internal alias, internal function name and internal
parameter list. -/
inductive Expression where
  | column (exp_alias : Option String) (table_name : Option String) (column_name : String)
  | literal (exp_alias : Option String) (value : LitValue)
  | functionCall (exp_alias : Option String) (function_name : String)
      (parameters : List Expression)
  | curriedFunctionCall (exp_alias : Option String) (internal_alias : Option String)
      (internal_function_name : String) (internal_parameters : List Expression)
      (parameters : List Expression)

open Decidable in
mutual
/-- Structural (Python `==`) equality on expressions, as a `Decidable`
instance built by mutual recursion through the nested parameter lists. -/
def Expression.deq : (a b : Expression) → Decidable (a = b)
  | .column a1 t1 c1, .column a2 t2 c2 =>
      if h : a1 = a2 ∧ t1 = t2 ∧ c1 = c2 then
        isTrue (by rw [h.1, h.2.1, h.2.2])
      else isFalse (by intro he; cases he; exact h ⟨rfl, rfl, rfl⟩)
  | .literal a1 v1, .literal a2 v2 =>
      if h : a1 = a2 ∧ v1 = v2 then
        isTrue (by rw [h.1, h.2])
      else isFalse (by intro he; cases he; exact h ⟨rfl, rfl⟩)
  | .functionCall a1 n1 p1, .functionCall a2 n2 p2 =>
      match Expression.deqList p1 p2 with
      | isTrue hp =>
          if h : a1 = a2 ∧ n1 = n2 then
            isTrue (by rw [h.1, h.2, hp])
          else isFalse (by intro he; cases he; exact h ⟨rfl, rfl⟩)
      | isFalse hp => isFalse (by intro he; cases he; exact hp rfl)
  | .curriedFunctionCall a1 i1 n1 q1 p1, .curriedFunctionCall a2 i2 n2 q2 p2 =>
      match Expression.deqList q1 q2, Expression.deqList p1 p2 with
      | isTrue hq, isTrue hp =>
          if h : a1 = a2 ∧ i1 = i2 ∧ n1 = n2 then
            isTrue (by rw [h.1, h.2.1, h.2.2, hq, hp])
          else isFalse (by intro he; cases he; exact h ⟨rfl, rfl, rfl⟩)
      | isFalse hq, _ => isFalse (by intro he; cases he; exact hq rfl)
      | _, isFalse hp => isFalse (by intro he; cases he; exact hp rfl)
  | .column _ _ _, .literal _ _ => isFalse nofun
  | .column _ _ _, .functionCall _ _ _ => isFalse nofun
  | .column _ _ _, .curriedFunctionCall _ _ _ _ _ => isFalse nofun
  | .literal _ _, .column _ _ _ => isFalse nofun
  | .literal _ _, .functionCall _ _ _ => isFalse nofun
  | .literal _ _, .curriedFunctionCall _ _ _ _ _ => isFalse nofun
  | .functionCall _ _ _, .column _ _ _ => isFalse nofun
  | .functionCall _ _ _, .literal _ _ => isFalse nofun
  | .functionCall _ _ _, .curriedFunctionCall _ _ _ _ _ => isFalse nofun
  | .curriedFunctionCall _ _ _ _ _, .column _ _ _ => isFalse nofun
  | .curriedFunctionCall _ _ _ _ _, .literal _ _ => isFalse nofun
  | .curriedFunctionCall _ _ _ _ _, .functionCall _ _ _ => isFalse nofun

def Expression.deqList : (as bs : List Expression) → Decidable (as = bs)
  | [], [] => isTrue rfl
  | [], _ :: _ => isFalse nofun
  | _ :: _, [] => isFalse nofun
  | a :: as, b :: bs =>
      match Expression.deq a b, Expression.deqList as bs with
      | isTrue h1, isTrue h2 => isTrue (by rw [h1, h2])
      | isFalse h1, _ => isFalse (by intro he; cases he; exact h1 rfl)
      | _, isFalse h2 => isFalse (by intro he; cases he; exact h2 rfl)
end

instance : DecidableEq Expression := Expression.deq

/-- `snuba.query.SelectedExpression`: a named selected column. -/
structure SelectedExpression where
  name : String
  expression : Expression
deriving DecidableEq

/-- Order directions of `snuba.query.OrderByDirection`. -/
inductive OrderByDirection where
  | asc
  | desc
deriving DecidableEq

/-- `snuba.query.OrderBy`. -/
structure OrderBy where
  direction : OrderByDirection
  expression : Expression
deriving DecidableEq

/-- Modelled from the spec: the boolean connective names of
`snuba.query.conditions.BooleanFunctions` (`snuba/query/conditions.py` is not
under the inspected source). -/
def BooleanFunctions.AND : String := "and"

/-- Modelled from the spec: the `OR` connective name of
`snuba.query.conditions.BooleanFunctions`. -/
def BooleanFunctions.OR : String := "or"

/-- Modelled from the spec: the comparison function names of
`snuba.query.conditions.ConditionFunctions` used by this compiler. -/
def ConditionFunctions.EQ : String := "equals"

/-- Modelled from the spec: `ConditionFunctions.IN`. -/
def ConditionFunctions.IN : String := "in"

/-- Modelled from the spec: `ConditionFunctions.GTE`. -/
def ConditionFunctions.GTE : String := "greaterOrEquals"

/-- Modelled from the spec: `ConditionFunctions.LT`. -/
def ConditionFunctions.LT : String := "less"

/-- Modelled from the spec: `snuba.query.conditions.binary_condition`
builds an unaliased two-argument function call. -/
def binary_condition (function_name : String) (lhs rhs : Expression) : Expression :=
  .functionCall none function_name [lhs, rhs]

/-- Modelled from the spec: `snuba.query.conditions.combine_and_conditions`
combines a non-empty list of conditions into a right-nested chain of binary
`and` calls ("these combine with AND across all leaves"); an empty list is an
error. -/
def combine_and_conditions : List Expression → Except QueryError Expression
  | [] => .error .assertionError
  | [c] => .ok c
  | c :: c2 :: rest => do
      let tail ← combine_and_conditions (c2 :: rest)
      .ok (binary_condition BooleanFunctions.AND c tail)

/-- Modelled from the spec: `snuba.query.dsl.arrayElement alias array index`
is `arrayElement(array, index)` with the given alias. -/
def arrayElement (exp_alias : Option String) (array index : Expression) : Expression :=
  .functionCall exp_alias "arrayElement" [array, index]

/-- The entity keys (`snuba.datasets.entities.entity_key.EntityKey`) this
compiler can select. -/
inductive EntityKey where
  | METRICS_COUNTERS
  | METRICS_DISTRIBUTIONS
  | METRICS_SETS
  | GENERIC_METRICS_COUNTERS
  | GENERIC_METRICS_DISTRIBUTIONS
  | GENERIC_METRICS_SETS
  | GENERIC_METRICS_GAUGES
deriving DecidableEq, Repr

/-- Modelled from the spec: a dataset is identified by its name
(`get_dataset_name`); the compiler only inspects the name. -/
structure Dataset where
  name : String
deriving DecidableEq

/-- Modelled from the spec: `snuba.datasets.factory.get_dataset_name`. -/
def get_dataset_name (dataset : Dataset) : String := dataset.name

/-- `snuba.query.data_source.simple.Entity` (`QueryEntity`): an entity key
together with its data model.  Modelled from the spec: the metadata object
returned by `get_entity(key).get_data_model()` is opaque to this compiler and
is represented by the key that determines it. -/
structure QueryEntity where
  key : EntityKey
  data_model : EntityKey
deriving DecidableEq, Repr

/-- Modelled from the spec: `get_entity(key).get_data_model()`, represented
by the determining key. -/
def get_data_model (key : EntityKey) : EntityKey := key

/-- `METRICS_ENTITIES`: the per-type-character entity table of the `metrics`
dataset. -/
def METRICS_ENTITIES : Char → Option EntityKey
  | 'c' => some .METRICS_COUNTERS
  | 'd' => some .METRICS_DISTRIBUTIONS
  | 's' => some .METRICS_SETS
  | _ => none

/-- `GENERIC_ENTITIES`: the per-type-character entity table of the
`generic_metrics` dataset. -/
def GENERIC_ENTITIES : Char → Option EntityKey
  | 'c' => some .GENERIC_METRICS_COUNTERS
  | 'd' => some .GENERIC_METRICS_DISTRIBUTIONS
  | 's' => some .GENERIC_METRICS_SETS
  | 'g' => some .GENERIC_METRICS_GAUGES
  | _ => none

/-- `select_entity(mri, dataset)`.  Python indexes `mri[0]` before any
lookup; on the empty string that indexing raises an unguarded `IndexError`
(this also happens in the final f-string when the dataset is unknown), so the
empty string is an `IndexError` for every dataset. -/
def select_entity (mri : String) (dataset : Dataset) : Except QueryError EntityKey :=
  match mri.data.head? with
  | none => .error .indexError
  | some c =>
      let looked : Option EntityKey :=
        if get_dataset_name dataset = "metrics" then METRICS_ENTITIES c
        else if get_dataset_name dataset = "generic_metrics" then GENERIC_ENTITIES c
        else none
      match looked with
      | some entity => .ok entity
      | none => .error (.parsing ("invalid metric type " ++ String.mk [c]) true)

/-- One side of a join key
(`snuba.query.data_source.join.JoinConditionExpression`). -/
structure JoinConditionExpression where
  table_alias : String
  column : String
deriving DecidableEq, Repr

/-- An equality join key (`snuba.query.data_source.join.JoinCondition`). -/
structure JoinCondition where
  left : JoinConditionExpression
  right : JoinConditionExpression
deriving DecidableEq, Repr

/-- `snuba.query.data_source.join.JoinType`; this compiler only builds
`INNER` joins. -/
inductive JoinType where
  | inner
deriving DecidableEq, Repr

/-- `snuba.query.data_source.join.IndividualNode`: an aliased entity
reference. -/
structure IndividualNode where
  node_alias : String
  data_source : QueryEntity
deriving DecidableEq, Repr

mutual
/-- `snuba.query.data_source.join.JoinClause`: joins a left side (either a
nested `JoinClause` or a single `IndividualNode`) to a right
`IndividualNode` on a list of equality keys. -/
inductive JoinClause where
  | mk (left_node : JoinNode) (right_node : IndividualNode)
       (keys : List JoinCondition) (join_type : JoinType)
/-- The left side of a `JoinClause`. -/
inductive JoinNode where
  | individual (n : IndividualNode)
  | clause (c : JoinClause)
end

def JoinClause.left_node : JoinClause → JoinNode
  | .mk l _ _ _ => l

def JoinClause.right_node : JoinClause → IndividualNode
  | .mk _ r _ _ => r

def JoinClause.keys : JoinClause → List JoinCondition
  | .mk _ _ k _ => k

def JoinClause.join_type : JoinClause → JoinType
  | .mk _ _ _ t => t

mutual
/-- The individual nodes of a join clause in traversal order (left side
first, then the right node), used by `get_alias_node_map`. -/
def JoinClause.nodes : JoinClause → List IndividualNode
  | .mk l r _ _ => JoinNode.nodes l ++ [r]
def JoinNode.nodes : JoinNode → List IndividualNode
  | .individual n => [n]
  | .clause c => JoinClause.nodes c
end

/-- Keep the first node carrying each alias (Python dict keys are unique and
keep insertion order; all aliases are distinct in the clauses this compiler
builds, where this is the identity on the traversal). -/
def dedup_by_alias : List IndividualNode → List IndividualNode
  | [] => []
  | n :: ns => n :: dedup_by_alias (ns.filter (fun m => ¬ (m.node_alias = n.node_alias)))
termination_by l => l.length
decreasing_by
  simp only [List.length_cons]
  exact Nat.lt_succ_of_le (List.length_filter_le _ _)

/-- Modelled from the spec: `JoinClause.get_alias_node_map` returns the
alias-to-node dictionary of the join clause
(`snuba/query/data_source/join.py` is not under the inspected source). -/
def get_alias_node_map (clause : JoinClause) : List (String × IndividualNode) :=
  (dedup_by_alias clause.nodes).map (fun n => (n.node_alias, n))

/-- The mutable fields shared by `LogicalQuery` and `CompositeQuery`
(selected columns, condition, groupby, order by, limit, offset, totals). -/
structure QueryBody where
  selected_columns : List SelectedExpression := []
  condition : Option Expression := none
  groupby : List Expression := []
  order_by : List OrderBy := []
  limit : Option Int := none
  offset : Option Int := none
  totals : Bool := false
deriving DecidableEq

/-- A plan: a single-source `LogicalQuery` over one entity, or a
`CompositeQuery` over a `JoinClause`. -/
inductive EntityQueryT where
  | logical (from_clause : QueryEntity) (body : QueryBody)
  | composite (from_clause : JoinClause) (body : QueryBody)

/-- Python `isinstance(query, LogicalQuery)`. -/
def EntityQueryT.isLogical : EntityQueryT → Bool
  | .logical _ _ => true
  | .composite _ _ => false

def EntityQueryT.body : EntityQueryT → QueryBody
  | .logical _ b => b
  | .composite _ b => b

def EntityQueryT.withBody (q : EntityQueryT) (b : QueryBody) : EntityQueryT :=
  match q with
  | .logical f _ => .logical f b
  | .composite f _ => .composite f b

/-- Modelled from the spec: `Query.add_condition_to_ast` appends a condition,
combining with the existing condition with `and` when one is present. -/
def QueryBody.add_condition_to_ast (q : QueryBody) (cond : Expression) : QueryBody :=
  { q with condition :=
      match q.condition with
      | none => some cond
      | some old => some (binary_condition BooleanFunctions.AND old cond) }

def EntityQueryT.add_condition_to_ast (q : EntityQueryT) (cond : Expression) : EntityQueryT :=
  q.withBody (q.body.add_condition_to_ast cond)

def EntityQueryT.set_ast_selected_columns (q : EntityQueryT) (sel : List SelectedExpression) :
    EntityQueryT :=
  q.withBody { q.body with selected_columns := sel }

def EntityQueryT.set_ast_groupby (q : EntityQueryT) (g : List Expression) : EntityQueryT :=
  q.withBody { q.body with groupby := g }

def EntityQueryT.set_ast_orderby (q : EntityQueryT) (o : List OrderBy) : EntityQueryT :=
  q.withBody { q.body with order_by := o }

def EntityQueryT.set_totals (q : EntityQueryT) (t : Bool) : EntityQueryT :=
  q.withBody { q.body with totals := t }

def EntityQueryT.set_limit (q : EntityQueryT) (l : Int) : EntityQueryT :=
  q.withBody { q.body with limit := some l }

def EntityQueryT.set_offset (q : EntityQueryT) (o : Int) : EntityQueryT :=
  q.withBody { q.body with offset := some o }

/-- Python truthiness of an optional string: `None` and the empty string are
falsy. -/
def truthyStr : Option String → Bool
  | none => false
  | some s => ¬ (s = "")

/-- Python truthiness of an optional int: `None` and `0` are falsy. -/
def truthyInt : Option Int → Bool
  | none => false
  | some i => ¬ (i = 0)

/-- Python truthiness of an optional list: `None` and the empty list are
falsy. -/
def truthyList {α : Type} : Option (List α) → Bool
  | none => false
  | some l => ¬ l.isEmpty

mutual
/-- `InitialParseResult`: the intermediate tree produced by the visitor.
A leaf holds a selected aggregate expression, an optional mri, optional
filters and groupby and a table alias; a formula node holds an operator name
and parameters that are themselves nodes or numeric scalars. -/
inductive InitialParseResult where
  | mk (expression : Option SelectedExpression)
       (formula : Option String)
       (parameters : Option (List FormulaParameter))
       (groupby : Option (List SelectedExpression))
       (conditions : Option (List Expression))
       (mri : Option String)
       (table_alias : Option String)
/-- `FormulaParameter = Union[InitialParseResult, int, float]`; the numeric
scalars the visitor produces are always Python floats (`visit_number`). -/
inductive FormulaParameter where
  | node (t : InitialParseResult)
  | num (q : Rat)
end

def InitialParseResult.expression : InitialParseResult → Option SelectedExpression
  | .mk e _ _ _ _ _ _ => e

def InitialParseResult.formula : InitialParseResult → Option String
  | .mk _ f _ _ _ _ _ => f

def InitialParseResult.parameters : InitialParseResult → Option (List FormulaParameter)
  | .mk _ _ p _ _ _ _ => p

def InitialParseResult.groupby : InitialParseResult → Option (List SelectedExpression)
  | .mk _ _ _ g _ _ _ => g

def InitialParseResult.conditions : InitialParseResult → Option (List Expression)
  | .mk _ _ _ _ c _ _ => c

def InitialParseResult.mri : InitialParseResult → Option String
  | .mk _ _ _ _ _ m _ => m

def InitialParseResult.table_alias : InitialParseResult → Option String
  | .mk _ _ _ _ _ _ a => a

/-- `AGGREGATE_ALIAS` from `snuba_sdk.metrics_visitors`: the alias given to
every selected aggregate. -/
def AGGREGATE_ALIAS : String := "aggregate_value"

/-- The decimal digit character for `d < 10`. -/
def digitChar (d : Nat) : Char := Char.ofNat (48 + d)

/-- The big-endian decimal digit characters of a natural number, as produced
by Python `str(n)` for `n ≥ 0`. -/
def natDecimalAux (n : Nat) : List Char :=
  if _h : n < 10 then [digitChar n]
  else natDecimalAux (n / 10) ++ [digitChar (n % 10)]
termination_by n
decreasing_by
  exact Nat.div_lt_self (by omega) (by omega)

/-- Python `str(n)` for a natural number. -/
def natDecimal (n : Nat) : String := String.mk (natDecimalAux n)

/-- Python `str(i)` for an int: decimal digits, with a leading minus sign for
negative values. -/
def intDecimal (i : Int) : String :=
  if i < 0 then "-" ++ natDecimal i.natAbs else natDecimal i.toNat

/-- The per-compilation alias counters (`MQLVisitor.alias_count`): a Python
dict from the one-character alias string to the last suffix used. -/
def AliasCount : Type := List (String × Int)

/-- Python `dict.get`. -/
def dictGet (d : AliasCount) (k : String) : Option Int :=
  (List.find? (fun kv => kv.1 = k) d).map (fun kv => kv.2)

/-- Python `dict.__setitem__`: update the binding in place, appending a new
one when the key is absent. -/
def dictSet : AliasCount → String → Int → AliasCount
  | [], k, v => [(k, v)]
  | kv :: rest, k, v =>
      if kv.1 = k then (k, v) :: rest else kv :: dictSet rest k v

/-- `MQLVisitor._generate_table_alias`: the alias is `mri[0]` (an
`IndexError` on the empty string) followed by the per-character counter;
`setdefault(alias, -1) + 1` reads the previous suffix (or `-1`) and the new
suffix is stored back. -/
def generate_table_alias (mri : String) (alias_count : AliasCount) :
    Except QueryError (String × AliasCount) :=
  match mri.data.head? with
  | none => .error .indexError
  | some c =>
      let al := String.mk [c]
      let suffix := (dictGet alias_count al).getD (-1) + 1
      .ok (al ++ intDecimal suffix, dictSet alias_count al suffix)

/-- `MQLVisitor.visit_unquoted_mri` (and, but for quote stripping,
`visit_quoted_mri`): a fresh leaf with the mri and a fresh table alias. -/
def visit_unquoted_mri (mri : String) (alias_count : AliasCount) :
    Except QueryError (InitialParseResult × AliasCount) := do
  let (table_alias, alias_count') ← generate_table_alias mri alias_count
  .ok (.mk none none none none none (some mri) (some table_alias), alias_count')

/-- `MQLVisitor.visit_aggregate`: wraps the aggregate name around the metric
`value` column and stores it as the leaf's selected expression, aliased
`AGGREGATE_ALIAS`. -/
def visit_aggregate (aggregate_name : String) (target : InitialParseResult) :
    InitialParseResult :=
  match target with
  | .mk _ f p g c m a =>
      .mk (some ⟨AGGREGATE_ALIAS,
            .functionCall (some AGGREGATE_ALIAS) aggregate_name
              [.column none none "value"]⟩) f p g c m a

/-- `convert_timeseries_to_query`: converts a single (non-formula) leaf into
a single-source `LogicalQuery`: selected columns are the leaf's expression
plus its groupby columns, the condition pins `metric_id` to the mri and
appends the leaf's filters, the groupby is the leaf's groupby columns. -/
def convert_timeseries_to_query (parsed : InitialParseResult) (dataset : Dataset) :
    Except QueryError EntityQueryT := do
  match parsed.expression with
  | none => .error (.invalidQuery "Parsed expression has no expression specified")
  | some expr =>
      let selected_columns :=
        if truthyList parsed.groupby then expr :: parsed.groupby.getD []
        else [expr]
      let groupby : List Expression :=
        if truthyList parsed.groupby then
          (parsed.groupby.getD []).map (fun g => g.expression)
        else []
      let metric_value := parsed.mri
      if truthyStr metric_value then do
        let conditions : List Expression :=
          binary_condition ConditionFunctions.EQ
              (.column none none "metric_id")
              (.literal none (.str (metric_value.getD ""))) ::
            (if truthyList parsed.conditions then parsed.conditions.getD [] else [])
        let final_conditions ← combine_and_conditions conditions
        let entity_key ← select_entity (metric_value.getD "") dataset
        .ok (.logical ⟨entity_key, get_data_model entity_key⟩
          { selected_columns := selected_columns
            condition := some final_conditions
            groupby := groupby })
      else .error (.parsing "no MRI specified in MQL query" true)

mutual
/-- `find_all_leaf_nodes` inside `build_formula_query_from_clause`: a node
whose `formula` is `None` is itself the single leaf; a formula node collects
the leaves of its parameters left to right; a numeric scalar yields `None`
(skipped by the caller's `if found:` guard). -/
def find_all_leaf_nodes : FormulaParameter → Option (List InitialParseResult)
  | .num _ => none
  | .node (.mk e none p g c m a) => some [.mk e none p g c m a]
  | .node (.mk _ (some _) none _ _ _ _) => some (find_leaves_list [])
  | .node (.mk _ (some _) (some ps) _ _ _ _) => some (find_leaves_list ps)
/-- The `nodes.extend(found)` loop of `find_all_leaf_nodes` over the
parameter list. -/
def find_leaves_list : List FormulaParameter → List InitialParseResult
  | [] => []
  | q :: ps => (find_all_leaf_nodes q).getD [] ++ find_leaves_list ps
end

/-- `build_node` inside `build_formula_query_from_clause`: resolves the
leaf's entity and wraps it into an aliased `IndividualNode`; a falsy mri or
table alias is an error.  (The Python `entities` dict only memoizes the
`QueryEntity` object, whose value is determined by the entity key, so the
memoization is value-transparent here.) -/
def build_node (node : InitialParseResult) (dataset : Dataset) :
    Except QueryError IndividualNode := do
  if truthyStr node.mri then
    if truthyStr node.table_alias then do
      let entity_key ← select_entity (node.mri.getD "") dataset
      .ok ⟨node.table_alias.getD "", ⟨entity_key, get_data_model entity_key⟩⟩
    else .error (.invalidQuery ("No table alias found for MRI " ++ node.mri.getD ""))
  else .error (.invalidQuery "No MRI found")

/-- The join-key comprehension of `build_join_clause`: one equality key per
groupby column of the leaf, linking the leaf's alias (left) to the previous
node's alias (right); a groupby entry whose expression is not a `Column`
fails the `assert`. -/
def join_keys_for (lhs_alias prev_alias : String) :
    List SelectedExpression → Except QueryError (List JoinCondition)
  | [] => .ok []
  | g :: gs =>
      match g.expression with
      | .column _ _ column_name => do
          let rest ← join_keys_for lhs_alias prev_alias gs
          .ok (⟨⟨lhs_alias, column_name⟩, ⟨prev_alias, column_name⟩⟩ :: rest)
      | _ => .error .assertionError

/-- `build_join_clause`: recursively joins each leaf to the previous node;
the returned clause has the previous node as its right node and, as its left
side, either the single new node or the chain built from the remaining
leaves. -/
def build_join_clause (dataset : Dataset) (prev_node : IndividualNode) :
    List InitialParseResult → Except QueryError JoinClause
  | [] => .error (.invalidQuery "Invalid join clause in formula query")
  | node :: rest => do
      if truthyStr node.table_alias then do
        let lhs ← build_node node dataset
        let conditions ← join_keys_for lhs.node_alias prev_node.node_alias (node.groupby.getD [])
        let left_side : JoinNode ←
          if rest.isEmpty then .ok (.individual lhs)
          else do
            let sub ← build_join_clause dataset lhs rest
            .ok (.clause sub)
        .ok (.mk left_side prev_node conditions .inner)
      else .error (.invalidQuery "Invalid table alias in formula query")

/-- The `entity_keys` list comprehension of `build_formula_query_from_clause`:
resolves every leaf's entity in order, substituting the empty string for a
falsy mri. -/
def select_entities_for : List InitialParseResult → Dataset → Except QueryError (List EntityKey)
  | [], _ => .ok []
  | node :: rest, dataset => do
      let k ← select_entity (node.mri.getD "") dataset
      let ks ← select_entities_for rest dataset
      .ok (k :: ks)

/-- `build_formula_query_from_clause`: collects the formula's leaves,
validates that they all share the first leaf's groupby, resolves every
leaf's entity, and returns either a single-source `LogicalQuery` (one leaf)
or a `CompositeQuery` over the join chain. `join_nodes[0]` on an empty leaf
list is an `IndexError`. -/
def build_formula_query_from_clause (parsed : InitialParseResult) (dataset : Dataset) :
    Except QueryError (EntityQueryT × List InitialParseResult) := do
  match find_all_leaf_nodes (.node parsed) with
  | none => .error (.invalidQuery "Could not parse formula")
  | some join_nodes =>
      match join_nodes with
      | [] => .error .indexError
      | first :: rest =>
          let groupbys := first.groupby
          if join_nodes.all (fun node => decide (node.groupby = groupbys)) then do
            let entity_keys ← select_entities_for join_nodes dataset
            match entity_keys with
            | [entity_key] =>
                .ok (.logical ⟨entity_key, get_data_model entity_key⟩ {}, join_nodes)
            | _ => do
                let first_node ← build_node first dataset
                let join_clause ← build_join_clause dataset first_node rest
                .ok (.composite join_clause {}, join_nodes)
          else .error (.invalidQuery "All terms in a formula must have the same groupby")

/-- `alias_wrap` inside `convert_formula_to_query`: table aliases are
dropped when the built query is a single-source `LogicalQuery`. -/
def alias_wrap (is_logical : Bool) (a : Option String) : Option String :=
  if is_logical then none else a

mutual
/-- `extract_expression` inside `convert_formula_to_query`: a scalar becomes
a literal; a leaf's aggregate call is rebuilt unaliased over its value
column with the table qualifier rewritten through `alias_wrap`; a (truthy)
formula becomes a function call named after the operator. -/
def extract_expression (is_logical : Bool) : FormulaParameter → Except QueryError Expression
  | .num q => .ok (.literal none (.num q))
  | .node (.mk (some se) _ _ _ _ _ ta) =>
      match se.expression with
      | .functionCall _ fname ps =>
          match ps.head? with
          | none => .error .indexError
          | some p0 =>
              match p0 with
              | .column ca _ cn =>
                  .ok (.functionCall none fname [.column ca (alias_wrap is_logical ta) cn])
              | _ => .error .assertionError
      | .curriedFunctionCall _ ia iname ips ps =>
          match ps.head? with
          | none => .error .indexError
          | some p0 =>
              match p0 with
              | .column ca _ cn =>
                  .ok (.curriedFunctionCall none ia iname ips
                    [.column ca (alias_wrap is_logical ta) cn])
              | _ => .error .assertionError
      | _ => .error .assertionError
  | .node (.mk none (some fname) none _ _ _ _) =>
      if fname = "" then .error (.invalidQuery "Could not build selected expression for formula")
      else do
        let args ← extract_expression_list is_logical []
        .ok (.functionCall none fname args)
  | .node (.mk none (some fname) (some ps) _ _ _ _) =>
      if fname = "" then .error (.invalidQuery "Could not build selected expression for formula")
      else do
        let args ← extract_expression_list is_logical ps
        .ok (.functionCall none fname args)
  | .node (.mk none none _ _ _ _ _) =>
      .error (.invalidQuery "Could not build selected expression for formula")
def extract_expression_list (is_logical : Bool) :
    List FormulaParameter → Except QueryError (List Expression)
  | [] => .ok []
  | p :: ps => do
      let e ← extract_expression is_logical p
      let rest ← extract_expression_list is_logical ps
      .ok (e :: rest)
end

/-- `Literal(None, param.mri)` stores the leaf's mri, which is `None` when
absent. -/
def litOfOptStr : Option String → LitValue
  | some s => .str s
  | none => .nul

/-- The per-leaf filter loop of `extract_filters`: each condition must be a
`FunctionCall` (`assert`), its first parameter is read (`IndexError` when
there are no parameters), and the condition is kept — with the first
parameter's table name rewritten — only when that first parameter is a
`Column`; otherwise the condition is silently dropped. -/
def filter_conditions_for_leaf (wrapped_alias : Option String) :
    List Expression → Except QueryError (List Expression)
  | [] => .ok []
  | c :: cs =>
      match c with
      | .functionCall ca fname ps =>
          match ps with
          | [] => .error .indexError
          | lhs :: rest_params => do
              let rest ← filter_conditions_for_leaf wrapped_alias cs
              match lhs with
              | .column la _ lcn =>
                  .ok (.functionCall ca fname (.column la wrapped_alias lcn :: rest_params) :: rest)
              | _ => .ok rest
      | _ => .error .assertionError

mutual
/-- `extract_filters` inside `convert_formula_to_query`: a scalar
contributes nothing; a leaf contributes its kept filters followed by an
equality pinning its (alias-qualified) `metric_id` column to its mri
literal; a (truthy) formula concatenates its parameters' contributions. -/
def extract_filters (is_logical : Bool) : FormulaParameter → Except QueryError (List Expression)
  | .num _ => .ok []
  | .node (.mk (some _) _ _ _ cnds m ta) => do
      let kept ← filter_conditions_for_leaf (alias_wrap is_logical ta) (cnds.getD [])
      .ok (kept ++ [binary_condition "equals"
        (.column none (alias_wrap is_logical ta) "metric_id")
        (.literal none (litOfOptStr m))])
  | .node (.mk none (some fname) none _ _ _ _) =>
      if fname = "" then .error (.invalidQuery "Could not extract valid filters for formula")
      else extract_filters_list is_logical []
  | .node (.mk none (some fname) (some ps) _ _ _ _) =>
      if fname = "" then .error (.invalidQuery "Could not extract valid filters for formula")
      else extract_filters_list is_logical ps
  | .node (.mk none none _ _ _ _ _) =>
      .error (.invalidQuery "Could not extract valid filters for formula")
def extract_filters_list (is_logical : Bool) :
    List FormulaParameter → Except QueryError (List Expression)
  | [] => .ok []
  | p :: ps => do
      let cs ← extract_filters is_logical p
      let rest ← extract_filters_list is_logical ps
      .ok (cs ++ rest)
end

/-- The groupby-hoisting loop of `convert_formula_to_query`: every `Column`
groupby expression of every leaf is re-qualified through `alias_wrap` and
appended (in leaf order) to both the selected columns and the groupby. -/
def hoisted_groupby_columns (is_logical : Bool) (nodes : List InitialParseResult) :
    List SelectedExpression :=
  nodes.foldl (fun acc leaf =>
    if truthyList leaf.groupby then
      acc ++ (leaf.groupby.getD []).filterMap (fun ge =>
        match ge.expression with
        | .column ca _ cn => some ⟨ge.name, .column ca (alias_wrap is_logical leaf.table_alias) cn⟩
        | _ => none)
    else acc) []

/-- `convert_formula_to_query`: builds the (single-source or composite)
query skeleton, the selected formula expression, the hoisted groupby
columns, and the combined AND of all leaves' filter/metric-id conditions. -/
def convert_formula_to_query (parsed : InitialParseResult) (dataset : Dataset) :
    Except QueryError EntityQueryT := do
  match parsed.formula with
  | none => .error (.invalidQuery "Parsed formula has no formula name specified")
  | some formula_name => do
      let (query, nodes) ← build_formula_query_from_clause parsed dataset
      let is_logical := query.isLogical
      let args ← extract_expression_list is_logical (parsed.parameters.getD [])
      let selected_head : SelectedExpression :=
        ⟨AGGREGATE_ALIAS, .functionCall (some AGGREGATE_ALIAS) formula_name args⟩
      let hoisted := hoisted_groupby_columns is_logical nodes
      let groupby := hoisted.map (fun s => s.expression)
      let query := if ¬ groupby.isEmpty then query.set_ast_groupby groupby else query
      let query := query.set_ast_selected_columns (selected_head :: hoisted)
      let conditions ← extract_filters_list is_logical (parsed.parameters.getD [])
      let combined ← combine_and_conditions conditions
      .ok (query.add_condition_to_ast combined)

/-- Modelled from the spec: `GRANULARITIES_AVAILABLE`
(`snuba/utils/constants.py`, not under the inspected source) is the fixed
allowed set of granularities, in seconds and in increasing order: ten
seconds, one minute, one hour, one day.  `GRANULARITIES_AVAILABLE[0]` is the
smallest allowed granularity. -/
def GRANULARITIES_AVAILABLE : List Int := [10, 60, 3600, 86400]

/-- Modelled from the spec: `MAX_LIMIT` (`snuba/query/snql/parser.py`, not
under the inspected source) is the hard limit ceiling of 10000. -/
def MAX_LIMIT : Int := 10000

/-- The rollup part of the compilation context. -/
structure Rollup where
  granularity : Int
  interval : Option Int := none
  with_totals : Option String := none
  orderby : Option String := none
deriving DecidableEq

/-- The tenant scope part of the compilation context. -/
structure MetricsScope where
  org_ids : List Int
  project_ids : List Int
  use_case_id : String
deriving DecidableEq

/-- Modelled from the spec: the compilation context (`MQLContext`,
`snuba/query/mql/mql_context.py` is not under the inspected source): scope,
start/end timestamps (kept in their string form here), rollup settings,
limit and offset.  `end_time` models the Python attribute `end`, which is a
reserved word in Lean. -/
structure MQLContext where
  start : String
  end_time : String
  rollup : Rollup
  scope : MetricsScope
  limit : Option Int := none
  offset : Option Int := none
deriving DecidableEq

/-- `populate_rollup`: validates the granularity against
`GRANULARITIES_AVAILABLE` and appends a `granularity = value` condition;
validates `with_totals`, `orderby`, the interval/orderby combination, and —
only for a truthy interval — the interval bounds; then either installs the
time-bucket expression (select, groupby, ascending order, totals) for a
truthy interval, or an explicit ordering on the aggregate alias. -/
def populate_rollup (query : EntityQueryT) (mql_context : MQLContext) :
    Except QueryError EntityQueryT := do
  let rollup := mql_context.rollup
  if ¬ (rollup.granularity ∈ GRANULARITIES_AVAILABLE) then
    .error (.parsing ("granularity '" ++ intDecimal rollup.granularity ++
      "' is not valid, must be one of the available granularities") true)
  else
    let query := query.add_condition_to_ast (binary_condition ConditionFunctions.EQ
      (.column none none "granularity") (.literal none (.int rollup.granularity)))
    if rollup.with_totals ≠ none ∧ rollup.with_totals ≠ some "True" ∧
        rollup.with_totals ≠ some "False" then
      .error (.parsing "with_totals must be a string, either 'True' or 'False'" true)
    else if rollup.orderby ≠ none ∧ rollup.orderby ≠ some "ASC" ∧
        rollup.orderby ≠ some "DESC" then
      .error (.parsing "orderby must be either 'ASC' or 'DESC'" true)
    else if rollup.interval ≠ none ∧ rollup.orderby ≠ none then
      .error (.parsing "orderby is not supported when interval is specified" true)
    else if truthyInt rollup.interval ∧ (rollup.interval.getD 0 < GRANULARITIES_AVAILABLE.headI ∨
        rollup.interval.getD 0 < rollup.granularity) then
      .error (.parsing ("interval " ++ intDecimal (rollup.interval.getD 0) ++
        " must be greater than or equal to granularity " ++
        intDecimal rollup.granularity) true)
    else
      let with_totals := rollup.with_totals = some "True"
      if truthyInt rollup.interval then
        let time_expression : Expression :=
          .functionCall (some "time") "toStartOfInterval"
            [.column none none "timestamp",
             .functionCall none "toIntervalSecond" [.literal none (.int (rollup.interval.getD 0))],
             .literal none (.str "Universal")]
        let query := query.set_ast_selected_columns
          (query.body.selected_columns ++ [⟨"time", time_expression⟩])
        let query :=
          if ¬ query.body.groupby.isEmpty then
            query.set_ast_groupby (query.body.groupby ++ [time_expression])
          else query.set_ast_groupby [time_expression]
        let query := query.set_ast_orderby [⟨.asc, time_expression⟩]
        let query := if with_totals then query.set_totals true else query
        .ok query
      else if rollup.orderby ≠ none then
        let direction :=
          if rollup.orderby = some "ASC" then OrderByDirection.asc else OrderByDirection.desc
        .ok (query.set_ast_orderby [⟨direction, .column none none AGGREGATE_ALIAS⟩])
      else .ok query

/-- `populate_limit`: the limit defaults to 1000; a truthy context limit is
rejected above `MAX_LIMIT` with a non-reportable error, and otherwise
replaces the default. -/
def populate_limit (query : EntityQueryT) (mql_context : MQLContext) :
    Except QueryError EntityQueryT := do
  if truthyInt mql_context.limit then
    if mql_context.limit.getD 0 > MAX_LIMIT then
      .error (.parsing "queries cannot have a limit higher than 10000" false)
    else .ok (query.set_limit (mql_context.limit.getD 0))
  else .ok (query.set_limit 1000)

/-- Modelled from the spec: `start_end_time_condition`
(`snuba/query/mql/context_population.py`, not under the inspected source)
appends `timestamp >= start AND timestamp < end` per alias; the required
time column is modelled as `timestamp` and the parsed timestamps by their
string form. -/
def start_end_time_condition (mql_context : MQLContext) (_entity_key : EntityKey)
    (table_alias : Option String) : Expression :=
  binary_condition BooleanFunctions.AND
    (binary_condition ConditionFunctions.GTE (.column none table_alias "timestamp")
      (.literal none (.str mql_context.start)))
    (binary_condition ConditionFunctions.LT (.column none table_alias "timestamp")
      (.literal none (.str mql_context.end_time)))

/-- Modelled from the spec: `scope_conditions` appends
`project_id IN (...) AND org_id IN (...) AND use_case_id = ...` per alias. -/
def scope_conditions (mql_context : MQLContext) (table_alias : Option String) : Expression :=
  binary_condition BooleanFunctions.AND
    (binary_condition BooleanFunctions.AND
      (binary_condition ConditionFunctions.IN (.column none table_alias "project_id")
        (.functionCall none "tuple"
          (mql_context.scope.project_ids.map (fun p => .literal none (.int p)))))
      (binary_condition ConditionFunctions.IN (.column none table_alias "org_id")
        (.functionCall none "tuple"
          (mql_context.scope.org_ids.map (fun o => .literal none (.int o))))))
    (binary_condition ConditionFunctions.EQ (.column none table_alias "use_case_id")
      (.literal none (.str mql_context.scope.use_case_id)))

/-- Modelled from the spec: `rollup_expressions` performs the same
validations as `populate_rollup` and returns, per alias, the granularity
condition, the totals flag, an optional ordering, and — exactly when a
truthy bucketing interval is given — the selected time-bucket column. -/
def rollup_expressions (mql_context : MQLContext) (table_alias : Option String) :
    Except QueryError (Expression × Bool × Option OrderBy × Option SelectedExpression) := do
  let rollup := mql_context.rollup
  if ¬ (rollup.granularity ∈ GRANULARITIES_AVAILABLE) then
    .error (.parsing ("granularity '" ++ intDecimal rollup.granularity ++
      "' is not valid, must be one of the available granularities") true)
  else if rollup.with_totals ≠ none ∧ rollup.with_totals ≠ some "True" ∧
      rollup.with_totals ≠ some "False" then
    .error (.parsing "with_totals must be a string, either 'True' or 'False'" true)
  else if rollup.orderby ≠ none ∧ rollup.orderby ≠ some "ASC" ∧
      rollup.orderby ≠ some "DESC" then
    .error (.parsing "orderby must be either 'ASC' or 'DESC'" true)
  else if rollup.interval ≠ none ∧ rollup.orderby ≠ none then
    .error (.parsing "orderby is not supported when interval is specified" true)
  else if truthyInt rollup.interval ∧ (rollup.interval.getD 0 < GRANULARITIES_AVAILABLE.headI ∨
      rollup.interval.getD 0 < rollup.granularity) then
    .error (.parsing ("interval " ++ intDecimal (rollup.interval.getD 0) ++
      " must be greater than or equal to granularity " ++
      intDecimal rollup.granularity) true)
  else
    let granularity_condition := binary_condition ConditionFunctions.EQ
      (.column none table_alias "granularity") (.literal none (.int rollup.granularity))
    let with_totals := rollup.with_totals = some "True"
    if truthyInt rollup.interval then
      let time_expression : Expression :=
        .functionCall (some "time") "toStartOfInterval"
          [.column none table_alias "timestamp",
           .functionCall none "toIntervalSecond" [.literal none (.int (rollup.interval.getD 0))],
           .literal none (.str "Universal")]
      .ok (granularity_condition, with_totals, some ⟨.asc, time_expression⟩,
        some ⟨"time", time_expression⟩)
    else if rollup.orderby ≠ none then
      let direction :=
        if rollup.orderby = some "ASC" then OrderByDirection.asc else OrderByDirection.desc
      .ok (granularity_condition, with_totals,
        some ⟨direction, .column none table_alias AGGREGATE_ALIAS⟩, none)
    else .ok (granularity_condition, with_totals, none, none)

/-- Modelled from the spec: `limit_value` — the limit defaults to 1000 and a
truthy supplied value is rejected above `MAX_LIMIT` with a non-reportable
error. -/
def limit_value (mql_context : MQLContext) : Except QueryError Int :=
  if truthyInt mql_context.limit then
    if mql_context.limit.getD 0 > MAX_LIMIT then
      .error (.parsing "queries cannot have a limit higher than 10000" false)
    else .ok (mql_context.limit.getD 0)
  else .ok 1000

/-- Modelled from the spec: `offset_value` — a truthy negative offset is an
error, otherwise the offset (0 when unset). -/
def offset_value (mql_context : MQLContext) : Except QueryError Int :=
  if truthyInt mql_context.offset then
    if mql_context.offset.getD 0 < 0 then
      .error (.parsing "offset must be greater than or equal to 0" true)
    else .ok (mql_context.offset.getD 0)
  else .ok 0

/-- The body of the per-entity loop of `populate_query_from_mql_context`:
adds the combined time/scope/granularity condition, sets totals, installs
an ordering when one is returned, and — when the rollup returned a selected
time bucket — appends it to the selected columns and the groupby, recording
that a time bucket was found. -/
def populate_context_step (mql_context : MQLContext) (acc : EntityQueryT × Bool)
    (ed : EntityKey × Option String) : Except QueryError (EntityQueryT × Bool) := do
  let (query, selected_time_found) := acc
  let time_condition := start_end_time_condition mql_context ed.1 ed.2
  let scope_condition := scope_conditions mql_context ed.2
  let (granularity_condition, with_totals, orderby, selected_time) ←
    rollup_expressions mql_context ed.2
  let context_condition ← combine_and_conditions
    [time_condition, scope_condition, granularity_condition]
  let query := query.add_condition_to_ast context_condition
  let query := query.set_totals with_totals
  let query := match orderby with
    | some ob => query.set_ast_orderby [ob]
    | none => query
  match selected_time with
  | some st =>
      let query := query.set_ast_selected_columns (query.body.selected_columns ++ [st])
      let query :=
        if ¬ query.body.groupby.isEmpty then
          query.set_ast_groupby (query.body.groupby ++ [st.expression])
        else query.set_ast_groupby [st.expression]
      .ok (query, true)
  | none => .ok (query, selected_time_found)

/-- The `for entity_key, table_alias in entity_data` loop of
`populate_query_from_mql_context`. -/
def populate_context_loop (mql_context : MQLContext) (acc : EntityQueryT × Bool) :
    List (EntityKey × Option String) → Except QueryError (EntityQueryT × Bool)
  | [] => .ok acc
  | ed :: rest => do
      let acc' ← populate_context_step mql_context acc ed
      populate_context_loop mql_context acc' rest

/-- The `for other in other_aliases` loop of
`populate_query_from_mql_context`: one `(base.time = other.time)` key per
non-base alias; the `assert other is not None` fails on a `None` alias. -/
def time_join_conditions (base_node_alias : String) :
    List (Option String) → Except QueryError (List JoinCondition)
  | [] => .ok []
  | other :: rest =>
      match other with
      | none => .error .assertionError
      | some o => do
          let tail ← time_join_conditions base_node_alias rest
          .ok (JoinCondition.mk ⟨base_node_alias, "time"⟩ ⟨o, "time"⟩ :: tail)

/-- `populate_query_from_mql_context`: computes the entity/alias list (one
`(key, None)` pair for a `LogicalQuery`, the alias-node map for a
`CompositeQuery`), runs the per-entity loop, then — for a composite query in
which some alias selected a time bucket — appends to the join clause one
`(base.time = other.time)` key per alias other than the base alias, where
the base alias is the right node's alias; finally sets limit and (truthy)
offset. -/
def populate_query_from_mql_context (query : EntityQueryT) (mql_context : MQLContext) :
    Except QueryError (EntityQueryT × MQLContext) := do
  let entity_data : List (EntityKey × Option String) :=
    match query with
    | .logical fe _ => [(fe.key, none)]
    | .composite jc _ =>
        (get_alias_node_map jc).map (fun an => (an.2.data_source.key, some an.1))
  let (query, selected_time_found) ←
    populate_context_loop mql_context (query, false) entity_data
  let query ←
    match query with
    | .composite jc body =>
        if selected_time_found then do
          let base_node_alias := jc.right_node.node_alias
          let other_aliases :=
            (entity_data.filter (fun d => ¬ (d.2 = some base_node_alias))).map (fun d => d.2)
          let new_conditions ← time_join_conditions base_node_alias other_aliases
          let conditions := jc.keys
          .ok (EntityQueryT.composite
            (.mk jc.left_node jc.right_node (conditions ++ new_conditions) jc.join_type) body)
        else .ok query
    | q => .ok q
  let limit ← limit_value mql_context
  let offset ← offset_value mql_context
  let query := query.set_limit limit
  let query := if ¬ (offset = 0) then query.set_offset offset else query
  .ok (query, mql_context)

/-- The inner `transform` of `quantiles_to_quantile`: a curried call whose
internal function is `quantiles`/`quantilesIf` with exactly one internal
parameter becomes `arrayElement(call, 1)` — the wrapper takes the original
alias and the wrapped call loses it; every other expression is returned
unchanged. -/
def quantiles_transform (exp : Expression) : Expression :=
  match exp with
  | .curriedFunctionCall a ia iname ips ps =>
      if (iname = "quantiles" ∨ iname = "quantilesIf") ∧ ips.length = 1 then
        arrayElement a (.curriedFunctionCall none ia iname ips ps) (.literal none (.int 1))
      else .curriedFunctionCall a ia iname ips ps
  | e => e

mutual
/-- Modelled from the spec: `Expression.transform` of
`snuba/query/expressions.py` applies a transformer to every node of an
expression bottom-up (children first, then the rebuilt node). -/
def Expression.transformDeep (f : Expression → Expression) : Expression → Expression
  | .column a t c => f (.column a t c)
  | .literal a v => f (.literal a v)
  | .functionCall a n ps => f (.functionCall a n (transformDeepList f ps))
  | .curriedFunctionCall a ia iname ips ps =>
      f (.curriedFunctionCall a ia iname (transformDeepList f ips) (transformDeepList f ps))
def transformDeepList (f : Expression → Expression) : List Expression → List Expression
  | [] => []
  | e :: es => Expression.transformDeep f e :: transformDeepList f es
end

/-- Modelled from the spec: `Query.transform_expressions` applies the
transformer to every expression of the query (selected columns, condition,
groupby, order by). -/
def QueryBody.transform_expressions (q : QueryBody) (f : Expression → Expression) : QueryBody :=
  { q with
    selected_columns := q.selected_columns.map
      (fun s => ⟨s.name, Expression.transformDeep f s.expression⟩)
    condition := q.condition.map (Expression.transformDeep f)
    groupby := q.groupby.map (Expression.transformDeep f)
    order_by := q.order_by.map (fun o => ⟨o.direction, Expression.transformDeep f o.expression⟩) }

/-- `quantiles_to_quantile`: rewrites `quantiles(q)(...)` to
`arrayElement(quantiles(q)(...), 1)` over all expressions of the query. -/
def quantiles_to_quantile (query : EntityQueryT) : EntityQueryT :=
  query.withBody (query.body.transform_expressions quantiles_transform)

/-! ## Theorems -/

/-- A formula node `negate(leaf)` whose single leaf has no metric
identifier (`mri = None`): `build_formula_query_from_clause` substitutes the
empty string for the missing mri. -/
def mriLessFormula : InitialParseResult :=
  .mk none (some "negate")
    (some [.node (.mk (some ⟨AGGREGATE_ALIAS,
        .functionCall (some AGGREGATE_ALIAS) "sum" [.column none none "value"]⟩)
      none none none none none (some "d0"))])
    none none none none

/-- C10: `select_entity` applied to the empty identifier string raises an
unguarded `IndexError` from indexing `mri[0]` (for every dataset, since the
indexing also happens in the error f-string), rather than the documented
semantic/parsing error; and the call is reachable from
`build_formula_query_from_clause`, which passes `node.mri or ""` for a leaf
whose metric identifier is absent. -/
theorem claim_C10_empty_mri_index_error (dataset : Dataset) :
    select_entity "" dataset = .error .indexError ∧
    build_formula_query_from_clause mriLessFormula dataset = .error .indexError := by
  constructor
  · rfl
  · rw [build_formula_query_from_clause.eq_def]
    rw [show find_all_leaf_nodes (.node mriLessFormula) =
        some [.mk (some ⟨AGGREGATE_ALIAS,
          .functionCall (some AGGREGATE_ALIAS) "sum" [.column none none "value"]⟩)
        none none none none none (some "d0")] from by
      simp [mriLessFormula, find_all_leaf_nodes, find_leaves_list]]
    simp [InitialParseResult.groupby, InitialParseResult.mri, select_entities_for,
      select_entity, Bind.bind, Except.bind]

/-- C4: for an input `<agg>(<mri>)` — a single non-formula aggregate over
one metric identifier with no filter and no groupby, produced by
`visit_aggregate` over a fresh mri leaf — the compiler yields a
single-source `LogicalQuery` whose condition is exactly the equality
`metric_id = <mri>` and whose single selected column is `<agg>(value)`. -/
theorem claim_C4_single_aggregate (agg mri : String) (dataset : Dataset)
    (alias_count alias_count' : AliasCount) (t : InitialParseResult) (ek : EntityKey)
    (hvisit : visit_unquoted_mri mri alias_count = .ok (t, alias_count'))
    (hentity : select_entity mri dataset = .ok ek) :
    convert_timeseries_to_query (visit_aggregate agg t) dataset =
      .ok (.logical ⟨ek, get_data_model ek⟩
        { selected_columns := [⟨AGGREGATE_ALIAS,
            .functionCall (some AGGREGATE_ALIAS) agg [.column none none "value"]⟩]
          condition := some (binary_condition ConditionFunctions.EQ
            (.column none none "metric_id") (.literal none (.str mri)))
          groupby := [] }) := by
  have hne : ¬ (mri = "") := by
    intro h
    subst h
    simp [select_entity] at hentity
  obtain ⟨ta, hta⟩ : ∃ ta, t = .mk none none none none none (some mri) (some ta) := by
    unfold visit_unquoted_mri generate_table_alias at hvisit
    cases hc : mri.data.head? with
    | none => rw [hc] at hvisit; simp [Bind.bind, Except.bind] at hvisit
    | some c =>
        rw [hc] at hvisit
        simp [Bind.bind, Except.bind] at hvisit
        exact ⟨_, hvisit.1.symm⟩
  subst hta
  simp [convert_timeseries_to_query, visit_aggregate, InitialParseResult.expression,
    InitialParseResult.groupby, InitialParseResult.conditions, InitialParseResult.mri,
    truthyList, truthyStr, hne, combine_and_conditions, hentity,
    Bind.bind, Except.bind]

/-- Witness for C4 at `sum(d:x)` over the `metrics` dataset. -/
theorem claim_C4_single_aggregate_witness :
    visit_unquoted_mri "d:x" [] =
      .ok (.mk none none none none none (some "d:x") (some "d0"), [("d", 0)]) ∧
    select_entity "d:x" ⟨"metrics"⟩ = .ok .METRICS_DISTRIBUTIONS ∧
    convert_timeseries_to_query
        (visit_aggregate "sum" (.mk none none none none none (some "d:x") (some "d0")))
        ⟨"metrics"⟩ =
      .ok (.logical ⟨.METRICS_DISTRIBUTIONS, get_data_model .METRICS_DISTRIBUTIONS⟩
        { selected_columns := [⟨AGGREGATE_ALIAS,
            .functionCall (some AGGREGATE_ALIAS) "sum" [.column none none "value"]⟩]
          condition := some (binary_condition ConditionFunctions.EQ
            (.column none none "metric_id") (.literal none (.str "d:x")))
          groupby := [] }) := by
  have h1 : visit_unquoted_mri "d:x" [] =
      .ok (.mk none none none none none (some "d:x") (some "d0"), [("d", 0)]) := by
    simp [visit_unquoted_mri, generate_table_alias, dictGet, intDecimal, natDecimal,
      natDecimalAux, digitChar, dictSet, Bind.bind, Except.bind]
  have h2 : select_entity "d:x" ⟨"metrics"⟩ = .ok .METRICS_DISTRIBUTIONS := rfl
  exact ⟨h1, h2,
    claim_C4_single_aggregate "sum" "d:x" ⟨"metrics"⟩ [] [("d", 0)] _ _ h1 h2⟩

/-- A sample empty single-source query over the metrics counters entity. -/
def sampleLogicalQuery : EntityQueryT :=
  .logical ⟨.METRICS_COUNTERS, get_data_model .METRICS_COUNTERS⟩ {}

/-- A sample compilation context with granularity 60 and no optional
settings. -/
def sampleContext : MQLContext where
  start := "2024-01-01T00:00:00"
  end_time := "2024-01-02T00:00:00"
  rollup := { granularity := 60 }
  scope := { org_ids := [1], project_ids := [11], use_case_id := "transactions" }

/-- Does the computation end in a `ParsingException` (a semantic error)? -/
def isParsingError {α : Type} : Except QueryError α → Bool
  | .error (.parsing _ _) => true
  | _ => false

theorem isParsingError_exists {α : Type} (e : Except QueryError α)
    (h : isParsingError e = true) : ∃ msg rep, e = .error (.parsing msg rep) := by
  match e with
  | .error (.parsing m r) => exact ⟨m, r, rfl⟩
  | .error (.invalidQuery _) => simp [isParsingError] at h
  | .error .indexError => simp [isParsingError] at h
  | .error .assertionError => simp [isParsingError] at h
  | .ok _ => simp [isParsingError] at h

/-- C8 counterexample: a context that supplies the limit `0` — a value that
is at most 10000, which the claim says is installed as the plan's limit —
gets the default limit 1000 instead, because Python `if mql_context.limit:`
treats `0` as unset. -/
theorem claim_C8_counterexample :
    populate_limit sampleLogicalQuery { sampleContext with limit := some 0 } =
      .ok (sampleLogicalQuery.set_limit 1000) ∧ (1000 : Int) ≠ 0 := by
  constructor
  · simp [populate_limit, truthyInt]
  · decide

/-- C8 (amended): `populate_limit` sets the plan's limit to 1000 when the
context supplies no limit or the limit `0` (a falsy limit), sets it to the
supplied value when that value is nonzero and at most 10000, and raises a
non-reportable semantic error when the supplied value exceeds 10000. -/
theorem claim_C8_limit_amended (query : EntityQueryT) (mql_context : MQLContext) :
    (mql_context.limit = none ∨ mql_context.limit = some 0 →
      populate_limit query mql_context = .ok (query.set_limit 1000)) ∧
    (∀ v : Int, mql_context.limit = some v → ¬ v = 0 → v ≤ 10000 →
      populate_limit query mql_context = .ok (query.set_limit v)) ∧
    (∀ v : Int, mql_context.limit = some v → v > 10000 →
      populate_limit query mql_context =
        .error (.parsing "queries cannot have a limit higher than 10000" false)) := by
  refine ⟨?_, ?_, ?_⟩
  · rintro (h | h) <;> simp [populate_limit, truthyInt, h]
  · intro v hv hnz hle
    simp [populate_limit, truthyInt, hv, hnz, MAX_LIMIT]
    omega
  · intro v hv hgt
    have hnz : ¬ v = 0 := by omega
    simp [populate_limit, truthyInt, hv, hnz, MAX_LIMIT]
    omega

/-- Witness for the amended C8 at an unset limit, at limit 500 and at limit
10001. -/
theorem claim_C8_limit_amended_witness :
    populate_limit sampleLogicalQuery sampleContext =
      .ok (sampleLogicalQuery.set_limit 1000) ∧
    populate_limit sampleLogicalQuery { sampleContext with limit := some 500 } =
      .ok (sampleLogicalQuery.set_limit 500) ∧
    populate_limit sampleLogicalQuery { sampleContext with limit := some 10001 } =
      .error (.parsing "queries cannot have a limit higher than 10000" false) :=
  ⟨(claim_C8_limit_amended _ _).1 (Or.inl rfl),
   (claim_C8_limit_amended _ _).2.1 500 rfl (by decide) (by decide),
   (claim_C8_limit_amended _ _).2.2 10001 rfl (by decide)⟩

/-- C7 counterexample: with granularity 60 and the supplied bucketing
interval `0` — which is smaller than the granularity, so the claim says
`populate_rollup` must raise — `populate_rollup` succeeds, because Python
`if rollup.interval` treats `0` as no interval; it returns the query with
only the granularity condition installed. -/
theorem claim_C7_counterexample :
    populate_rollup sampleLogicalQuery
        { sampleContext with rollup := { granularity := 60, interval := some 0 } } =
      .ok (sampleLogicalQuery.add_condition_to_ast (binary_condition ConditionFunctions.EQ
        (.column none none "granularity") (.literal none (.int 60)))) ∧
    (some (0 : Int) ≠ (none : Option Int)) ∧ (0 : Int) < 60 := by
  refine ⟨?_, by decide, by decide⟩
  simp [populate_rollup, sampleContext, truthyInt, GRANULARITIES_AVAILABLE]

/-- C7 (amended): whenever the rollup context carries a truthy (nonzero)
bucketing interval that is smaller than the smallest allowed granularity or
smaller than the chosen granularity, `populate_rollup` raises a semantic
(parsing) error; in particular a nonzero interval smaller than the
granularity always errors. -/
theorem claim_C7_rollup_interval_amended (query : EntityQueryT) (mql_context : MQLContext)
    (htruthy : truthyInt mql_context.rollup.interval = true)
    (hsmall : mql_context.rollup.interval.getD 0 < GRANULARITIES_AVAILABLE.headI ∨
      mql_context.rollup.interval.getD 0 < mql_context.rollup.granularity) :
    ∃ msg rep, populate_rollup query mql_context = .error (.parsing msg rep) := by
  apply isParsingError_exists
  rw [populate_rollup.eq_def]
  dsimp only
  split_ifs <;> first
    | rfl
    | tauto

/-- Witness for the amended C7 at granularity 60 and interval 30. -/
theorem claim_C7_rollup_interval_amended_witness :
    ∃ msg rep, populate_rollup sampleLogicalQuery
      { sampleContext with rollup := { granularity := 60, interval := some 30 } } =
        .error (.parsing msg rep) :=
  claim_C7_rollup_interval_amended _ _ (by decide) (by decide)

/-- C6: the quantile-unwrap transform rewrites every curried call whose
internal function is a quantiles-family function (`quantiles`/`quantilesIf`)
with exactly one internal parameter into `arrayElement(call, 1)`, keeping
the original alias on the wrapper; a curried quantiles call with two or more
internal parameters is left unchanged.  This holds both for the node
transformer `quantiles_transform` and through `quantiles_to_quantile` on a
query selecting such a call. -/
theorem claim_C6_quantiles_unwrap (f : String)
    (hf : f = "quantiles" ∨ f = "quantilesIf") :
    (∀ (a ia : Option String) (q : Expression) (ps : List Expression),
      quantiles_transform (.curriedFunctionCall a ia f [q] ps) =
        arrayElement a (.curriedFunctionCall none ia f [q] ps) (.literal none (.int 1))) ∧
    (∀ (a ia : Option String) (q1 q2 : Expression) (qs ps : List Expression),
      quantiles_transform (.curriedFunctionCall a ia f (q1 :: q2 :: qs) ps) =
        .curriedFunctionCall a ia f (q1 :: q2 :: qs) ps) ∧
    (∀ (sel_name : String) (a ia : Option String) (v : LitValue) (fc : QueryEntity),
      quantiles_to_quantile (.logical fc
          { selected_columns := [⟨sel_name, .curriedFunctionCall a ia f [.literal none v]
              [.column none none "value"]⟩] }) =
        .logical fc
          { selected_columns := [⟨sel_name, arrayElement a
              (.curriedFunctionCall none ia f [.literal none v] [.column none none "value"])
              (.literal none (.int 1))⟩] }) ∧
    (∀ (sel_name : String) (a ia : Option String) (v1 v2 : LitValue) (fc : QueryEntity),
      quantiles_to_quantile (.logical fc
          { selected_columns := [⟨sel_name, .curriedFunctionCall a ia f
              [.literal none v1, .literal none v2] [.column none none "value"]⟩] }) =
        .logical fc
          { selected_columns := [⟨sel_name, .curriedFunctionCall a ia f
              [.literal none v1, .literal none v2] [.column none none "value"]⟩] }) := by
  refine ⟨?_, ?_, ?_, ?_⟩
  · intro a ia q ps
    rcases hf with rfl | rfl <;> simp [quantiles_transform]
  · intro a ia q1 q2 qs ps
    rcases hf with rfl | rfl <;> simp [quantiles_transform]
  · intro sel_name a ia v fc
    rcases hf with rfl | rfl <;>
      simp [quantiles_to_quantile, QueryBody.transform_expressions, EntityQueryT.withBody,
        EntityQueryT.body, Expression.transformDeep, transformDeepList, quantiles_transform]
  · intro sel_name a ia v1 v2 fc
    rcases hf with rfl | rfl <;>
      simp [quantiles_to_quantile, QueryBody.transform_expressions, EntityQueryT.withBody,
        EntityQueryT.body, Expression.transformDeep, transformDeepList, quantiles_transform]

/-- Witness for C6 at `quantiles(0.5)(value)` (rewritten) and
`quantiles(0.5, 0.9)(value)` (unchanged). -/
theorem claim_C6_quantiles_unwrap_witness :
    quantiles_transform (.curriedFunctionCall (some AGGREGATE_ALIAS) none "quantiles"
        [.literal none (.num (1 / 2))] [.column none none "value"]) =
      arrayElement (some AGGREGATE_ALIAS)
        (.curriedFunctionCall none none "quantiles" [.literal none (.num (1 / 2))]
          [.column none none "value"]) (.literal none (.int 1)) ∧
    quantiles_transform (.curriedFunctionCall (some AGGREGATE_ALIAS) none "quantiles"
        [.literal none (.num (1 / 2)), .literal none (.num (9 / 10))]
        [.column none none "value"]) =
      .curriedFunctionCall (some AGGREGATE_ALIAS) none "quantiles"
        [.literal none (.num (1 / 2)), .literal none (.num (9 / 10))]
        [.column none none "value"] :=
  ⟨(claim_C6_quantiles_unwrap "quantiles" (Or.inl rfl)).1 _ _ _ _,
   (claim_C6_quantiles_unwrap "quantiles" (Or.inl rfl)).2.1 _ _ _ _ [] _⟩

/-- A leaf node as the visitor produces it for `sum(<mri>)`, with the given
alias, groupby and filters. -/
def sampleLeaf (mri node_alias : String) (gb : Option (List SelectedExpression))
    (conds : Option (List Expression)) : InitialParseResult :=
  .mk (some ⟨AGGREGATE_ALIAS,
        .functionCall (some AGGREGATE_ALIAS) "sum" [.column none none "value"]⟩)
      none none gb conds (some mri) (some node_alias)

/-- C3: whenever the collected leaves of a formula do not all carry a
groupby identical to the first leaf's, `build_formula_query_from_clause`
raises the semantic error about mismatched groupbys — no plan is
returned. -/
theorem claim_C3_groupby_mismatch (parsed : InitialParseResult) (dataset : Dataset)
    (l1 : InitialParseResult) (ls : List InitialParseResult)
    (hfind : find_all_leaf_nodes (.node parsed) = some (l1 :: ls))
    (hmis : ¬ ∀ n ∈ l1 :: ls, n.groupby = l1.groupby) :
    build_formula_query_from_clause parsed dataset =
      .error (.invalidQuery "All terms in a formula must have the same groupby") := by
  rw [build_formula_query_from_clause.eq_def, hfind]
  have hall : ((l1 :: ls).all (fun node => decide (node.groupby = l1.groupby))) = false := by
    rw [List.all_eq_false]
    push_neg at hmis
    obtain ⟨n, hn, hne⟩ := hmis
    exact ⟨n, hn, by simp [hne]⟩
  simp [hall]

/-- The first leaf of the groupby-mismatch example: `sum(d:a) by (x)`. -/
def mismatchLeafA : InitialParseResult :=
  sampleLeaf "d:a" "d0" (some [⟨"x", .column (some "x") none "x"⟩]) none

/-- The second leaf of the groupby-mismatch example: `sum(d:b) by (y)`. -/
def mismatchLeafB : InitialParseResult :=
  sampleLeaf "d:b" "d1" (some [⟨"y", .column (some "y") none "y"⟩]) none

/-- Witness for C3 at `sum(d:a) by (x) + sum(d:b) by (y)`. -/
theorem claim_C3_groupby_mismatch_witness :
    build_formula_query_from_clause
        (.mk none (some "plus") (some [.node mismatchLeafA, .node mismatchLeafB])
          none none none none) ⟨"generic_metrics"⟩ =
      .error (.invalidQuery "All terms in a formula must have the same groupby") := by
  apply claim_C3_groupby_mismatch _ _ mismatchLeafA [mismatchLeafB]
  · simp [find_all_leaf_nodes, find_leaves_list, mismatchLeafA, mismatchLeafB, sampleLeaf]
  · intro h
    exact absurd (h mismatchLeafB (by simp)) (by decide)

end Snuba
